import Mathlib

/-!
# Verification of the Daily_Signal_Alert_Crypto signal core

Shallow embedding of the signal-decision pipeline of
`strategy/consolidated_trend.py` and the structure detectors of
`utils/indicators.py`, together with a column-level model of the pandas
frame effects used by `set_htf_trend` and `calculate_all_indicators`.

Numeric model: prices and indicator values are rationals.  A float cell
that may be NaN is modelled by `NF := Option ℚ`, with `none` standing for
NaN; ordered comparisons against NaN are false, and arithmetic propagates
NaN, exactly as IEEE comparisons/arithmetic behave in the Python source.
A pandas column that may be absent from the frame is modelled by a
frame-level presence flag; reading an absent column with `Series.get`
yields the supplied default, while a bare `df["col"]` read of an absent
column raises, modelled by `Except Unit`.
-/

/-- A float value that may be NaN: `none` is NaN. -/
abbrev NF := Option ℚ

def nfAdd : NF → NF → NF
  | some a, some b => some (a + b)
  | _, _ => none

def nfSub : NF → NF → NF
  | some a, some b => some (a - b)
  | _, _ => none

def nfMul : NF → NF → NF
  | some a, some b => some (a * b)
  | _, _ => none

def nfAbs : NF → NF
  | some a => some |a|
  | none => none

/-- `a <= b` on floats: false when either side is NaN. -/
def nfLe : NF → NF → Bool
  | some a, some b => decide (a ≤ b)
  | _, _ => false

/-- `a < b` on floats: false when either side is NaN. -/
def nfLt : NF → NF → Bool
  | some a, some b => decide (a < b)
  | _, _ => false

/-- One row of the trading-timeframe frame: the OHLC candle fields
(always present, per the data model) and the derived indicator cells the
signal pipeline reads; a derived cell is `none` when it holds NaN. -/
structure Row where
  open_ : ℚ
  high : ℚ
  low : ℚ
  close : ℚ
  tdi_slow_ma : NF := none
  bb_width_percent : NF := none
  atr : NF := none
  deriving Repr, DecidableEq

/-- The trading-timeframe frame handed to `generate_signal`: the ordered
rows plus presence flags for the derived columns (a pandas column exists
frame-wide or not at all). -/
structure Frame where
  rows : List Row
  has_tdi_slow_ma : Bool := true
  has_bb_width_percent : Bool := true
  has_atr : Bool := true
  deriving Repr, DecidableEq

def dummyRow : Row := ⟨0, 0, 0, 0, none, none, none⟩

/-- `df.iloc[-1]` (only used under a nonempty-frame guard in the source). -/
def lastRow (f : Frame) : Row := f.rows.getLastD dummyRow

/-- The last `n` elements of a list (`.iloc[-n:]`). -/
def lastN (n : ℕ) (xs : List α) : List α := xs.drop (xs.length - n)

/-- pandas `Series.max()`: NaN on an empty series. -/
def seriesMax : List ℚ → NF
  | [] => none
  | x :: xs => some (xs.foldl max x)

/-- pandas `Series.min()`: NaN on an empty series. -/
def seriesMin : List ℚ → NF
  | [] => none
  | x :: xs => some (xs.foldl min x)

/-- A SweepEvent as returned by `Indicators.detect_liquidity_sweep`
(the nonempty-dict case). -/
structure Sweep where
  direction : String
  sweep_level : ℚ
  deriving Repr, DecidableEq

/-- `Indicators.detect_liquidity_sweep` (indicators.py lines 140-168).
`prev = df.iloc[-lookback:-1]` is the last `lookback` rows with the final
one removed, i.e. the `lookback - 1` candles immediately preceding the
last; `last = df.iloc[-1]`.  BUY: `last.high > prev.high.max()` and
`max(last.open, last.close) <= prev.high.max()`; evaluated before SELL:
`last.low < prev.low.min()` and `min(last.open, last.close) >=
prev.low.min()`.  Fewer than `lookback + 2` rows: empty dict (`none`). -/
def detect_liquidity_sweep (f : Frame) (lookback : ℕ := 20) : Option Sweep :=
  if f.rows.length < lookback + 2 then none
  else
    let prev := (lastN lookback f.rows).dropLast
    let last := lastRow f
    let prev_high := seriesMax (prev.map Row.high)
    let prev_low := seriesMin (prev.map Row.low)
    let body_high := max last.open_ last.close
    let body_low := min last.open_ last.close
    if nfLt prev_high (some last.high) && nfLe (some body_high) prev_high then
      some ⟨"BUY", last.low⟩
    else if nfLt (some last.low) prev_low && nfLe prev_low (some body_low) then
      some ⟨"SELL", last.high⟩
    else
      none

/-- `Indicators.detect_market_structure_shift` (indicators.py 170-178):
BUY: `high[-1] > high[-3]`; any other direction: `low[-1] < low[-3]`;
requires at least 6 rows. -/
def detect_market_structure_shift (f : Frame) (direction : String) : Bool :=
  if f.rows.length < 6 then false
  else
    let rows := f.rows
    if direction = "BUY" then
      decide ((rows.getLastD dummyRow).high > ((lastN 3 rows).headD dummyRow).high)
    else
      decide ((rows.getLastD dummyRow).low < ((lastN 3 rows).headD dummyRow).low)

/-- `Indicators.detect_fvg` (indicators.py 180-191): with `c1 =
df.iloc[-3]` and `c3 = df.iloc[-1]`, BUY: `c3.low > c1.high`; any other
direction: `c3.high < c1.low`; requires at least 3 rows. -/
def detect_fvg (f : Frame) (direction : String) : Bool :=
  if f.rows.length < 3 then false
  else
    let c1 := (lastN 3 f.rows).headD dummyRow
    let c3 := f.rows.getLastD dummyRow
    if direction = "BUY" then decide (c3.low > c1.high)
    else decide (c3.high < c1.low)

/-! ## Strategy constants (consolidated_trend.py lines 9-25) -/

def HTF_EMA_PERIOD : ℕ := 20
def RRR_RATIO : ℚ := 2
def MIN_BB_WIDTH : ℚ := 3 / 1000
def MAX_BB_WIDTH : ℚ := 3 / 100
def MIN_TDI_BUY : ℚ := 30
def MAX_TDI_SELL : ℚ := 70
def MIN_TDI_SLOPE : ℚ := 15 / 100
def DIVERGENCE_LOOKBACK : ℕ := 6
def MIN_RISK_PCT : ℚ := 15 / 10000
def MAX_RISK_PCT : ℚ := 2 / 100
def ATR_SL_MULTIPLIER : ℚ := 6 / 10

/-- `_bb_ok` (consolidated_trend.py 65-66): `MIN_BB_WIDTH <= width <=
MAX_BB_WIDTH`; both chained comparisons are false on NaN. -/
def bb_ok (width : NF) : Bool :=
  nfLe (some MIN_BB_WIDTH) width && nfLe width (some MAX_BB_WIDTH)

/-- `_tdi_zone_ok` (consolidated_trend.py 68-73). -/
def tdi_zone_ok (slow : NF) (direction : String) : Bool :=
  if direction = "BUY" then nfLe (some MIN_TDI_BUY) slow
  else if direction = "SELL" then nfLe slow (some MAX_TDI_SELL)
  else false

/-- `_risk_ok` (consolidated_trend.py 110-112): `risk = abs(entry - sl)`,
`entry * MIN_RISK_PCT <= risk <= entry * MAX_RISK_PCT` (false on NaN). -/
def risk_ok (entry : ℚ) (sl : NF) : Bool :=
  let risk := nfAbs (nfSub (some entry) sl)
  nfLe (some (entry * MIN_RISK_PCT)) risk && nfLe risk (some (entry * MAX_RISK_PCT))

/-- The list of rational values of a float series, `none` when any entry is
NaN (a NaN input makes the least-squares fit NaN). -/
def allSome : List NF → Option (List ℚ)
  | [] => some []
  | none :: _ => none
  | some v :: vs => (allSome vs).map (fun ws => v :: ws)

/-- `Σ (i - xbar) * v_i` starting at index `i0`. -/
def dotIdx (xbar : ℚ) : ℕ → List ℚ → ℚ
  | _, [] => 0
  | i, v :: vs => ((i : ℚ) - xbar) * v + dotIdx xbar (i + 1) vs

/-- Slope coefficient of `np.polyfit(np.arange(n), y, 1)`: the
least-squares line slope `Σ (x_i - mean x)(y_i - mean y) / Σ (x_i - mean x)^2`
with `x_i = 0..n-1` (the numerator equals `Σ (x_i - mean x) y_i`).
NaN when the input holds a NaN or the fit is degenerate. -/
def polyfitSlope (ys : List NF) : NF :=
  match allSome ys with
  | none => none
  | some vs =>
    let n := vs.length
    let xbar : ℚ := ((n : ℚ) - 1) / 2
    let den : ℚ := (((List.range n).map (fun i => ((i : ℚ) - xbar) ^ 2)).sum)
    if den = 0 then none else some (dotIdx xbar 0 vs / den)

/-- `_tdi_slope` (consolidated_trend.py 75-85): 0.0 when fewer than 4 rows
(checked before the column read), else the least-squares slope of the last
4 values of `df["tdi_slow_ma"]`; the bare column read raises when the
column is absent. -/
def tdi_slope_of (f : Frame) : Except Unit NF :=
  if f.rows.length < 4 then .ok (some 0)
  else if f.has_tdi_slow_ma then
    .ok (polyfitSlope (lastN 4 (f.rows.map Row.tdi_slow_ma)))
  else .error ()

/-- `_tdi_divergence` (consolidated_trend.py 87-108): over the last
`DIVERGENCE_LOOKBACK = 6` rows, a BUY is divergent when the close slope is
positive while the tdi slope is negative, a SELL when the close slope is
negative while the tdi slope is positive; false when fewer than 6 rows
(checked before the column reads). -/
def tdi_divergence (f : Frame) (direction : String) : Except Unit Bool :=
  if f.rows.length < DIVERGENCE_LOOKBACK then .ok false
  else
    let price := lastN DIVERGENCE_LOOKBACK (f.rows.map (fun r => some r.close))
    if f.has_tdi_slow_ma then
      let tdi := lastN DIVERGENCE_LOOKBACK (f.rows.map Row.tdi_slow_ma)
      let price_slope := polyfitSlope price
      let t_slope := polyfitSlope tdi
      .ok ((decide (direction = "BUY") && nfLt (some 0) price_slope && nfLt t_slope (some 0)) ||
           (decide (direction = "SELL") && nfLt price_slope (some 0) && nfLt (some 0) t_slope))
    else .error ()

/-! ## Engine state and decisions -/

/-- `EngineState` (consolidated_trend.py 34-36): `htf_trend` and
`last_signal`, defaults NEUTRAL / NO_TRADE. -/
structure EngineState where
  htf_trend : String
  last_signal : String
  deriving Repr, DecidableEq

def initState : EngineState := ⟨"NEUTRAL", "NO_TRADE"⟩

/-- The payload dict built on the emitting branch (lines 183-193). -/
structure SignalInfo where
  entry_price : ℚ
  stop_loss : NF
  take_profit : NF
  signal_strength : String
  risk_factor : ℚ
  tdi_slow_ma : NF
  tdi_slope : NF
  bb_width_percent : NF
  atr : NF
  deriving Repr, DecidableEq

/-- The outcome of `generate_signal`: `("NO_TRADE", {"reason": ...})` or
`(direction, payload)`. -/
inductive Decision
  | noTrade (reason : String)
  | signal (direction : String) (info : SignalInfo)
  deriving Repr, DecidableEq

/-- Outcome of the state-independent part of the pipeline (everything
before the debounce): a rejection with its reason, or a fully priced
candidate signal. -/
inductive CoreOut
  | reject (reason : String)
  | candidate (direction : String) (info : SignalInfo)
  deriving Repr, DecidableEq

/-- The payload of lines 183-193; every field is computed before the
debounce check. `signal_strength` is HARD when `abs(tdi_slope) > 0.35`. -/
def mkInfo (entry : ℚ) (sl tp t_slope tdi_slow bb_width atr : NF) : SignalInfo :=
  ⟨entry, sl, tp,
   if nfLt (some (35 / 100)) (nfAbs t_slope) then "HARD" else "SOFT",
   RRR_RATIO, tdi_slow, t_slope, bb_width, atr⟩

/-- Line 121, `float(last.get("tdi_slow_ma", 0))`: the last row's value,
0 when the column is absent. -/
def tdi_slow_read (f : Frame) : NF :=
  if f.has_tdi_slow_ma then (lastRow f).tdi_slow_ma else some 0

/-- Line 122, `float(last.get("bb_width_percent", 0))`. -/
def bb_width_read (f : Frame) : NF :=
  if f.has_bb_width_percent then (lastRow f).bb_width_percent else some 0

/-- Line 123, `float(last.get("atr", last["close"] * 0.001))`: the last
row's value, the last close times 0.001 when the column is absent. -/
def atr_read (f : Frame) : NF :=
  if f.has_atr then (lastRow f).atr else some ((lastRow f).close * (1 / 1000))

/-- The BUY stop-loss of lines 164+167: `sweep_level - atr * ATR_SL_MULTIPLIER`. -/
def buy_sl (f : Frame) (sw : Sweep) : NF :=
  nfSub (some sw.sweep_level) (nfMul (atr_read f) (some ATR_SL_MULTIPLIER))

/-- The BUY target of line 170: `entry + (entry - sl) * RRR_RATIO`,
entry being the last close. -/
def buy_tp (f : Frame) (sw : Sweep) : NF :=
  nfAdd (some (lastRow f).close)
    (nfMul (nfSub (some (lastRow f).close) (buy_sl f sw)) (some RRR_RATIO))

/-- The SELL stop-loss of lines 164+172: `sweep_level + atr * ATR_SL_MULTIPLIER`. -/
def sell_sl (f : Frame) (sw : Sweep) : NF :=
  nfAdd (some sw.sweep_level) (nfMul (atr_read f) (some ATR_SL_MULTIPLIER))

/-- The SELL target of line 175: `entry - (sl - entry) * RRR_RATIO`. -/
def sell_tp (f : Frame) (sw : Sweep) : NF :=
  nfSub (some (lastRow f).close)
    (nfMul (nfSub (sell_sl f sw) (some (lastRow f).close)) (some RRR_RATIO))

/-- Lines 115-175 of `generate_signal` plus the payload construction: the
ordered filter pipeline.  It reads the engine state only through
`htf_trend` (the HTF-alignment gate); `last_signal` is consulted only by
the debounce, which lives in `generate_signal` below.  The bare
`df["tdi_slow_ma"]` reads inside the slope and divergence helpers raise
when that column is absent; `entry` is the last close. -/
def signal_core (htf_trend : String) (f : Frame) : Except Unit CoreOut :=
  if f.rows.isEmpty || f.rows.length < 50 then .ok (.reject "Insufficient data")
  else if !bb_ok (bb_width_read f) then .ok (.reject "BB width filter")
  else
    match detect_liquidity_sweep f 20 with
    | none => .ok (.reject "No liquidity sweep")
    | some sweep =>
      if sweep.direction = "BUY" ∧ htf_trend ≠ "BULL" then .ok (.reject "HTF not BULL")
      else if sweep.direction = "SELL" ∧ htf_trend ≠ "BEAR" then .ok (.reject "HTF not BEAR")
      else if !tdi_zone_ok (tdi_slow_read f) sweep.direction then .ok (.reject "Weak TDI zone")
      else
        match tdi_slope_of f with
        | .error e => .error e
        | .ok t_slope =>
          if nfLt (nfAbs t_slope) (some MIN_TDI_SLOPE) then .ok (.reject "Flat TDI")
          else
            match tdi_divergence f sweep.direction with
            | .error e => .error e
            | .ok dvg =>
              if dvg then .ok (.reject "TDI divergence")
              else if !detect_market_structure_shift f sweep.direction then
                .ok (.reject "No MSS")
              else if !detect_fvg f sweep.direction then .ok (.reject "No FVG")
              else if sweep.direction = "BUY" then
                if !risk_ok (lastRow f).close (buy_sl f sweep) then
                  .ok (.reject "Invalid BUY risk")
                else
                  .ok (.candidate sweep.direction
                    (mkInfo (lastRow f).close (buy_sl f sweep) (buy_tp f sweep) t_slope
                      (tdi_slow_read f) (bb_width_read f) (atr_read f)))
              else
                if !risk_ok (lastRow f).close (sell_sl f sweep) then
                  .ok (.reject "Invalid SELL risk")
                else
                  .ok (.candidate sweep.direction
                    (mkInfo (lastRow f).close (sell_sl f sweep) (sell_tp f sweep) t_slope
                      (tdi_slow_read f) (bb_width_read f) (atr_read f)))

/-- `generate_signal` (consolidated_trend.py 115-193): the filter pipeline
(`signal_core`) followed by the debounce against `last_signal` (lines
177-181).  Setting `last_signal := direction` on the emitting branch (line
181) is the only state write anywhere in the function.  Returns the
decision together with the engine state after the call. -/
def generate_signal (st : EngineState) (f : Frame) : Except Unit (Decision × EngineState) :=
  match signal_core st.htf_trend f with
  | .error e => .error e
  | .ok (.reject reason) => .ok (.noTrade reason, st)
  | .ok (.candidate direction info) =>
    if st.last_signal = direction then .ok (.noTrade "Duplicate signal", st)
    else .ok (.signal direction info, { st with last_signal := direction })

/-! ## Column-level pandas frame model (for the frame-mutation claims) -/

/-- Column-level model of a pandas DataFrame: the row count plus the
ordered association list of named columns. -/
structure PFrame where
  nrows : ℕ
  cols : List (String × List ℚ)
  deriving Repr, DecidableEq

/-- `df[name]`: the first column with that label, if any. -/
def getCol (f : PFrame) (name : String) : Option (List ℚ) :=
  (f.cols.find? (fun c => c.1 == name)).map Prod.snd

/-- `df[name] = values`: replaces the column in place when present, else
appends it on the right; the row count is unchanged. -/
def setCol (f : PFrame) (name : String) (values : List ℚ) : PFrame :=
  if f.cols.any (fun c => c.1 == name) then
    ⟨f.nrows, f.cols.map (fun c => if c.1 == name then (name, values) else c)⟩
  else ⟨f.nrows, f.cols ++ [(name, values)]⟩

def ewmaFrom (alpha : ℚ) (e : ℚ) : List ℚ → List ℚ
  | [] => []
  | x :: xs =>
    let e2 := alpha * x + (1 - alpha) * e
    e2 :: ewmaFrom alpha e2 xs

/-- pandas `ewm(span=period, adjust=False).mean()`: recursive smoothing
with `alpha = 2 / (span + 1)`, seeded with the first value. -/
def ewma (period : ℕ) : List ℚ → List ℚ
  | [] => []
  | x :: xs => x :: ewmaFrom (2 / ((period : ℚ) + 1)) x xs

/-- `Indicators.calculate_ema` (indicators.py 45-49): `df[col] =
df[column].ewm(span=period, adjust=False).mean(); return df`.  The column
assignment happens on the argument frame itself — there is no copy — so
the returned frame IS the caller's frame after the call.  Raises when the
source column is absent. -/
def calculate_ema (f : PFrame) (column : String) (period : ℕ) : Except Unit PFrame :=
  match getCol f column with
  | none => .error ()
  | some xs => .ok (setCol f (column ++ "_ema_" ++ toString period) (ewma period xs))

/-- Caller-visible effect of `Indicators.calculate_all_indicators`
(indicators.py 125-134) on its argument frame: line 127 rebinds `df` to
`df.copy()` before any column assignment, so every in-place column write
of the TDI / Bollinger / ATR passes targets the copy and the caller's
frame object is left exactly as it was.  This definition records that
aliasing fact (the numeric content of the derived columns lives only on
the returned copy). -/
def calculate_all_indicators_caller_after (f : PFrame) : PFrame := f

/-- `ConsolidatedTrendStrategy.set_htf_trend` (consolidated_trend.py
39-53).  Returns the updated engine state together with the caller's
higher-timeframe frame after the call: `calculate_ema` assigns the EMA
column on the frame passed in (no copy), so on the nonempty path the
caller's frame is the EMA-augmented one.  `htf_df.empty` is a zero row
count; then the trend is NEUTRAL and the frame is untouched.  The dead
lookup branches (a nonempty frame whose `close` column exists by the
caller's contract) are modelled as raises. -/
def set_htf_trend (st : EngineState) (htf_df : PFrame) : Except Unit (EngineState × PFrame) :=
  if htf_df.nrows = 0 then .ok ({ st with htf_trend := "NEUTRAL" }, htf_df)
  else
    match calculate_ema htf_df "close" HTF_EMA_PERIOD with
    | .error e => .error e
    | .ok f2 =>
      match getCol f2 "close", getCol f2 ("close_ema_" ++ toString HTF_EMA_PERIOD) with
      | some closes, some emas =>
        match closes.getLast?, emas.getLast? with
        | some c, some e =>
          let trend := if c > e then "BULL" else if c < e then "BEAR" else "NEUTRAL"
          .ok ({ st with htf_trend := trend }, f2)
        | _, _ => .error ()
      | _, _ => .error ()

/-! ## Concrete inputs

`F60` realises the section-8 qualifying BUY scenario of the spec: 60 rows,
the last candle's high (10001) exceeds the prior-window high (10000) while
its body top (10000) closes back at it, `bb_width_percent = 0.01`,
`tdi_slow_ma` ending 31.4, 31.6, 31.8, 32 (least-squares slope exactly
0.2), closes flat then rising (no bearish divergence), structure shift and
fair-value gap satisfied for BUY, `atr = 10`, entry (last close) 10000,
giving risk `10000 - (9990 - 0.6 * 10) = 16` inside the band [15, 200]. -/

def rowA : Row := ⟨9995, 9996, 9994, 9995, some 31, some (1 / 100), some 10⟩
def rowHigh : Row := { rowA with high := 10000 }
def row55 : Row := { rowA with tdi_slow_ma := some (156 / 5) }
def row56 : Row := { rowA with tdi_slow_ma := some (157 / 5) }
def row57 : Row := ⟨9995, 9980, 9994, 9995, some (158 / 5), some (1 / 100), some 10⟩
def row58 : Row := { rowA with tdi_slow_ma := some (159 / 5) }
def row59 : Row := ⟨9998, 10001, 9990, 10000, some 32, some (1 / 100), some 10⟩

def F60 : Frame :=
  ⟨List.replicate 50 rowA ++
    [rowHigh, rowA, rowA, rowA, rowA, row55, row56, row57, row58, row59],
   true, true, true⟩

/-- Engine state with a BULL higher-timeframe bias and no prior signal. -/
def stBull : EngineState := ⟨"BULL", "NO_TRADE"⟩

/-- A 10-row frame: below the minimum-history floor. -/
def Fshort : Frame := ⟨List.replicate 10 rowA, true, true, true⟩

/-- 50 rows but no `bb_width_percent` column. -/
def F50nb : Frame := ⟨List.replicate 50 rowA, true, false, true⟩

/-- A 3-row higher-timeframe frame holding only a `close` column. -/
def P3 : PFrame := ⟨3, [("close", [1, 2, 3])]⟩

/-- The spec's BUY-sweep condition (section 4.2 wording): the last
candle's high strictly exceeds the maximum high over the trailing window
(the last `lookback = 20` rows excluding the final one) while the body top
`max(open, close)` stays at or below that prior high. -/
def sweepBuyCond (f : Frame) : Bool :=
  nfLt (seriesMax (((lastN 20 f.rows).dropLast).map Row.high)) (some (lastRow f).high) &&
  nfLe (some (max (lastRow f).open_ (lastRow f).close))
    (seriesMax (((lastN 20 f.rows).dropLast).map Row.high))

/-- The spec's SELL-sweep condition: the last candle's low strictly below
the minimum low of the trailing window while the body bottom
`min(open, close)` stays at or above that prior low. -/
def sweepSellCond (f : Frame) : Bool :=
  nfLt (some (lastRow f).low) (seriesMin (((lastN 20 f.rows).dropLast).map Row.low)) &&
  nfLe (seriesMin (((lastN 20 f.rows).dropLast).map Row.low))
    (some (min (lastRow f).open_ (lastRow f).close))

/-- The payload emitted on the section-8 scenario: entry 10000 (last
close), stop 9984 = 9990 - 0.6 * 10, target 10032 = 10000 + 16 * 2,
strength SOFT (slope 0.2). -/
def sig60 : SignalInfo :=
  ⟨10000, some 9984, some 10032, "SOFT", 2, some 32, some (1 / 5), some (1 / 100), some 10⟩

/-- The caller's higher-timeframe frame after `set_htf_trend` on `P3`:
the original close column plus the in-place appended 20-EMA column. -/
def P3after : PFrame :=
  ⟨3, [("close", [1, 2, 3]), ("close_ema_20", [1, 23 / 21, 563 / 441])]⟩

/-! ## Helper lemmas -/

theorem gen_noTrade_inv {st : EngineState} {f : Frame} {r : String} {st' : EngineState}
    (h : generate_signal st f = .ok (.noTrade r, st')) : st' = st := by
  unfold generate_signal at h
  cases hc : signal_core st.htf_trend f <;> rw [hc] at h
  case error => cases h
  case ok c =>
    cases c with
    | reject reason => simp at h; exact h.2.symm
    | candidate d2 i2 =>
      by_cases hd : st.last_signal = d2
      · simp [hd] at h; exact h.2.symm
      · simp [hd] at h

theorem gen_signal_inv {st : EngineState} {f : Frame} {d : String} {info : SignalInfo}
    {st' : EngineState} (h : generate_signal st f = .ok (.signal d info, st')) :
    signal_core st.htf_trend f = .ok (.candidate d info) ∧ st.last_signal ≠ d ∧
      st' = ⟨st.htf_trend, d⟩ := by
  unfold generate_signal at h
  cases hc : signal_core st.htf_trend f <;> rw [hc] at h
  case error => cases h
  case ok c =>
    cases c with
    | reject reason => simp at h
    | candidate d2 i2 =>
      by_cases hd : st.last_signal = d2
      · simp [hd] at h
      · simp [hd] at h
        obtain ⟨⟨hd2, hinfo⟩, hst⟩ := h
        subst hd2; subst hinfo
        exact ⟨rfl, hd, hst.symm⟩

theorem risk_ok_spec {e : ℚ} {sl : NF} (h : risk_ok e sl = true) :
    ∃ s, sl = some s ∧ e * MIN_RISK_PCT ≤ |e - s| ∧ |e - s| ≤ e * MAX_RISK_PCT := by
  cases sl with
  | none => simp [risk_ok, nfSub, nfAbs, nfLe] at h
  | some s =>
    simp [risk_ok, nfSub, nfAbs, nfLe] at h
    exact ⟨s, rfl, h.1, h.2⟩

theorem sweep_cases {f : Frame} {l : ℕ} {s : Sweep} (h : detect_liquidity_sweep f l = some s) :
    (s.direction = "BUY" ∧ s.sweep_level = (lastRow f).low) ∨
    (s.direction = "SELL" ∧ s.sweep_level = (lastRow f).high) := by
  simp only [detect_liquidity_sweep] at h
  split at h
  · cases h
  · split at h
    · injection h with h2; subst h2; left; exact ⟨rfl, rfl⟩
    · split at h
      · injection h with h2; subst h2; right; exact ⟨rfl, rfl⟩
      · cases h

theorem core_candidate_inv {htf : String} {f : Frame} {d : String} {info : SignalInfo}
    (h : signal_core htf f = .ok (.candidate d info)) :
    ∃ sw : Sweep, detect_liquidity_sweep f 20 = some sw ∧ sw.direction = d ∧
      info.entry_price = (lastRow f).close ∧
      risk_ok info.entry_price info.stop_loss = true ∧
      ((d = "BUY" ∧ info.stop_loss = buy_sl f sw ∧ info.take_profit = buy_tp f sw) ∨
       (¬ d = "BUY" ∧ info.stop_loss = sell_sl f sw ∧ info.take_profit = sell_tp f sw)) := by
  unfold signal_core at h
  by_cases h1 : (f.rows.isEmpty || decide (f.rows.length < 50)) = true
  · rw [if_pos h1] at h; exact absurd h (by simp)
  · rw [if_neg h1] at h
    by_cases h2 : (!bb_ok (bb_width_read f)) = true
    · rw [if_pos h2] at h; exact absurd h (by simp)
    · rw [if_neg h2] at h
      rcases hsw : detect_liquidity_sweep f 20 with _ | sw
      · simp only [hsw] at h; exact absurd h (by simp)
      · simp only [hsw] at h
        by_cases h4 : sw.direction = "BUY" ∧ ¬htf = "BULL"
        · rw [if_pos h4] at h; exact absurd h (by simp)
        · rw [if_neg h4] at h
          by_cases h5 : sw.direction = "SELL" ∧ ¬htf = "BEAR"
          · rw [if_pos h5] at h; exact absurd h (by simp)
          · rw [if_neg h5] at h
            by_cases h6 : (!tdi_zone_ok (tdi_slow_read f) sw.direction) = true
            · rw [if_pos h6] at h; exact absurd h (by simp)
            · rw [if_neg h6] at h
              rcases hsl : tdi_slope_of f with e | slope
              · simp only [hsl] at h; exact absurd h (by simp)
              · simp only [hsl] at h
                by_cases h8 : nfLt (nfAbs slope) (some MIN_TDI_SLOPE) = true
                · rw [if_pos h8] at h; exact absurd h (by simp)
                · rw [if_neg h8] at h
                  rcases hdv : tdi_divergence f sw.direction with e | dvg
                  · simp only [hdv] at h; exact absurd h (by simp)
                  · simp only [hdv] at h
                    by_cases h10 : dvg = true
                    · rw [if_pos h10] at h; exact absurd h (by simp)
                    · rw [if_neg h10] at h
                      by_cases h11 : (!detect_market_structure_shift f sw.direction) = true
                      · rw [if_pos h11] at h; exact absurd h (by simp)
                      · rw [if_neg h11] at h
                        by_cases h12 : (!detect_fvg f sw.direction) = true
                        · rw [if_pos h12] at h; exact absurd h (by simp)
                        · rw [if_neg h12] at h
                          by_cases h13 : sw.direction = "BUY"
                          · rw [if_pos h13] at h
                            by_cases h14 : (!risk_ok (lastRow f).close (buy_sl f sw)) = true
                            · rw [if_pos h14] at h; exact absurd h (by simp)
                            · rw [if_neg h14] at h
                              simp only [Except.ok.injEq, CoreOut.candidate.injEq] at h
                              obtain ⟨hd, hinfo⟩ := h
                              subst hd; subst hinfo
                              simp only [Bool.not_eq_true, Bool.not_eq_false] at h14
                              exact ⟨sw, rfl, rfl, rfl, by simpa [mkInfo] using h14,
                                Or.inl ⟨h13, rfl, rfl⟩⟩
                          · rw [if_neg h13] at h
                            by_cases h14 : (!risk_ok (lastRow f).close (sell_sl f sw)) = true
                            · rw [if_pos h14] at h; exact absurd h (by simp)
                            · rw [if_neg h14] at h
                              simp only [Except.ok.injEq, CoreOut.candidate.injEq] at h
                              obtain ⟨hd, hinfo⟩ := h
                              subst hd; subst hinfo
                              simp only [Bool.not_eq_true, Bool.not_eq_false] at h14
                              exact ⟨sw, rfl, rfl, rfl, by simpa [mkInfo] using h14,
                                Or.inr ⟨h13, rfl, rfl⟩⟩

theorem gen_reject_of_core {st : EngineState} {f : Frame} {r : String}
    (h : signal_core st.htf_trend f = .ok (.reject r)) :
    generate_signal st f = .ok (.noTrade r, st) := by
  unfold generate_signal; rw [h]

theorem short_insufficient (st : EngineState) (f : Frame) (h : f.rows.length < 50) :
    generate_signal st f = .ok (.noTrade "Insufficient data", st) := by
  have hc : (f.rows.isEmpty || decide (f.rows.length < 50)) = true := by simp [h]
  unfold generate_signal signal_core
  rw [if_pos hc]

theorem guard_pass {f : Frame} (hlen : 50 ≤ f.rows.length) :
    ¬ (f.rows.isEmpty || decide (f.rows.length < 50)) = true := by
  have h0 : f.rows ≠ [] := by
    intro he; rw [he] at hlen; simp at hlen
  simp [h0, Nat.not_lt.mpr hlen]

theorem bb_reject (st : EngineState) (f : Frame) (hlen : 50 ≤ f.rows.length)
    (hbb : bb_ok (bb_width_read f) = false) :
    generate_signal st f = .ok (.noTrade "BB width filter", st) := by
  unfold generate_signal signal_core
  rw [if_neg (guard_pass hlen), if_pos (by simp [hbb])]

theorem htf_reject (htf : String) (f : Frame) (sw : Sweep)
    (hlen : 50 ≤ f.rows.length) (hbb : bb_ok (bb_width_read f) = true)
    (hsw : detect_liquidity_sweep f 20 = some sw)
    (hmis : (sw.direction = "BUY" ∧ htf ≠ "BULL") ∨ (sw.direction = "SELL" ∧ htf ≠ "BEAR")) :
    signal_core htf f =
      .ok (.reject (if sw.direction = "BUY" then "HTF not BULL" else "HTF not BEAR")) := by
  unfold signal_core
  rw [if_neg (guard_pass hlen), if_neg (by simp [hbb])]
  simp only [hsw]
  rcases hmis with ⟨hbuy, hnb⟩ | ⟨hsell, hnb⟩
  · rw [if_pos ⟨hbuy, hnb⟩, if_pos hbuy]
  · rw [if_neg (by simp [hsell]), if_pos ⟨hsell, hnb⟩, if_neg (by simp [hsell])]

theorem dup_suppress {s s' : EngineState} {f : Frame} {d : String} {info : SignalInfo}
    (hhtf : s'.htf_trend = s.htf_trend)
    (hcand : signal_core s.htf_trend f = .ok (.candidate d info))
    (hlast : s'.last_signal = d) :
    generate_signal s' f = .ok (.noTrade "Duplicate signal", s') := by
  unfold generate_signal
  rw [hhtf, hcand]
  simp [hlast]


set_option maxHeartbeats 4000000 in
set_option maxRecDepth 8000 in
theorem core60 : signal_core "BULL" F60 = .ok (.candidate "BUY" sig60) := by
  norm_num +decide [signal_core, F60, rowA, rowHigh, row55, row56, row57, row58, row59,
    detect_liquidity_sweep, detect_market_structure_shift, detect_fvg, lastRow, lastN,
    seriesMax, seriesMin, bb_ok, tdi_zone_ok, risk_ok, tdi_slope_of, tdi_divergence,
    polyfitSlope, allSome, dotIdx, nfLe, nfLt, nfAdd, nfSub, nfMul, nfAbs, mkInfo, sig60,
    tdi_slow_read, bb_width_read, atr_read, buy_sl, buy_tp, sell_sl, sell_tp,
    MIN_BB_WIDTH, MAX_BB_WIDTH, MIN_TDI_BUY, MAX_TDI_SELL, MIN_TDI_SLOPE,
    DIVERGENCE_LOOKBACK, MIN_RISK_PCT, MAX_RISK_PCT, ATR_SL_MULTIPLIER, RRR_RATIO,
    List.replicate, max_def, min_def, List.range_succ, List.range_zero, List.flatMap_cons,
    List.flatMap_nil, List.sum_cons, List.sum_nil, abs]

set_option maxHeartbeats 1000000 in
set_option maxRecDepth 8000 in
theorem F60_sweep : detect_liquidity_sweep F60 20 = some ⟨"BUY", 9990⟩ := by
  norm_num +decide [detect_liquidity_sweep, F60, rowA, rowHigh, row55, row56, row57, row58,
    row59, lastRow, lastN, seriesMax, seriesMin, nfLe, nfLt, List.replicate, max_def, min_def]

set_option maxRecDepth 8000 in
theorem F60_bb : bb_ok (bb_width_read F60) = true := by
  norm_num +decide [bb_ok, bb_width_read, lastRow, F60, rowA, rowHigh, row55, row56, row57,
    row58, row59, nfLe, MIN_BB_WIDTH, MAX_BB_WIDTH, List.replicate]

theorem F60_len : F60.rows.length = 60 := by
  simp [F60, List.replicate]

theorem F60_eval : generate_signal stBull F60 = .ok (.signal "BUY" sig60, ⟨"BULL", "BUY"⟩) := by
  unfold generate_signal
  rw [show stBull.htf_trend = "BULL" from rfl, core60]
  simp [stBull]

theorem F60_dup :
    generate_signal ⟨"BULL", "BUY"⟩ F60 = .ok (.noTrade "Duplicate signal", ⟨"BULL", "BUY"⟩) :=
  dup_suppress rfl core60 rfl

theorem core60_neutral : signal_core "NEUTRAL" F60 = .ok (.reject "HTF not BULL") := by
  have h := htf_reject "NEUTRAL" F60 ⟨"BUY", 9990⟩ (by rw [F60_len]; norm_num) F60_bb F60_sweep
    (Or.inl ⟨rfl, by decide⟩)
  simpa using h

theorem F60_neutral : generate_signal initState F60 = .ok (.noTrade "HTF not BULL", initState) :=
  gen_reject_of_core core60_neutral

/-! ## Claim theorems -/

/-- C1: for every call to `generate_signal`, `EngineState.last_signal` is
updated iff that call emits a non-duplicate Signal: every NoTrade return
(any rejection reason, including "Duplicate signal") leaves both
`last_signal` and `htf_trend` unchanged, and on the emitting branch
`last_signal` is set to the candidate direction, which differs from the
previous `last_signal`. -/
theorem C1_last_signal_update_iff_emit (st : EngineState) (f : Frame) (r : Decision)
    (st' : EngineState) (h : generate_signal st f = .ok (r, st')) :
    (∀ reason, r = .noTrade reason → st' = st) ∧
    (∀ d info, r = .signal d info →
      st'.htf_trend = st.htf_trend ∧ st'.last_signal = d ∧ st.last_signal ≠ d) := by
  constructor
  · rintro reason rfl
    exact gen_noTrade_inv h
  · rintro d info rfl
    obtain ⟨hc, hne, hst⟩ := gen_signal_inv h
    rw [hst]
    exact ⟨rfl, rfl, hne⟩

/-- Witness for C1 at the section-8 scenario: the emitting call keeps
`htf_trend` and sets `last_signal` to BUY, which differed before. -/
theorem C1_witness :
    (⟨"BULL", "BUY"⟩ : EngineState).htf_trend = stBull.htf_trend ∧
    (⟨"BULL", "BUY"⟩ : EngineState).last_signal = "BUY" ∧ stBull.last_signal ≠ "BUY" :=
  (C1_last_signal_update_iff_emit stBull F60 (.signal "BUY" sig60) ⟨"BULL", "BUY"⟩
    F60_eval).2 "BUY" sig60 rfl

/-- C2: every Signal emitted by `generate_signal` (any input frame, any
engine state) satisfies MIN_RISK_PCT * entry_price ≤ |entry_price -
stop_loss| ≤ MAX_RISK_PCT * entry_price with MIN_RISK_PCT = 0.0015 and
MAX_RISK_PCT = 0.02; an input whose derived risk violates the band is
answered with a NoTrade before the emit point, never a Signal. -/
theorem C2_risk_band (st : EngineState) (f : Frame) (d : String) (info : SignalInfo)
    (st' : EngineState) (h : generate_signal st f = .ok (.signal d info, st')) :
    ∃ s, info.stop_loss = some s ∧
      MIN_RISK_PCT * info.entry_price ≤ |info.entry_price - s| ∧
      |info.entry_price - s| ≤ MAX_RISK_PCT * info.entry_price ∧
      MIN_RISK_PCT = 15 / 10000 ∧ MAX_RISK_PCT = 2 / 100 := by
  obtain ⟨hc, -, -⟩ := gen_signal_inv h
  obtain ⟨sw, -, -, -, hrisk, -⟩ := core_candidate_inv hc
  obtain ⟨s, hs, h1, h2⟩ := risk_ok_spec hrisk
  exact ⟨s, hs, by rw [mul_comm]; exact h1, by rw [mul_comm]; exact h2, rfl, rfl⟩

/-- Witness for C2 at the section-8 scenario: entry 10000, stop 9984,
risk 16 inside [15, 200]. -/
theorem C2_witness :
    ∃ s, sig60.stop_loss = some s ∧
      MIN_RISK_PCT * sig60.entry_price ≤ |sig60.entry_price - s| ∧
      |sig60.entry_price - s| ≤ MAX_RISK_PCT * sig60.entry_price ∧
      MIN_RISK_PCT = 15 / 10000 ∧ MAX_RISK_PCT = 2 / 100 :=
  C2_risk_band stBull F60 "BUY" sig60 ⟨"BULL", "BUY"⟩ F60_eval

/-- C4: every frame shorter than the 50-row minimum-history floor — the
empty frame included, its length being 0 — makes `generate_signal` return
the NO_TRADE outcome with reason "Insufficient data", for every engine
state, which is also left unchanged. -/
theorem C4_insufficient_data (st : EngineState) (f : Frame) (h : f.rows.length < 50) :
    generate_signal st f = .ok (.noTrade "Insufficient data", st) :=
  short_insufficient st f h

/-- Witness for C4: a 10-row frame is rejected as "Insufficient data". -/
theorem C4_witness : generate_signal stBull Fshort = .ok (.noTrade "Insufficient data", stBull) :=
  C4_insufficient_data stBull Fshort (by norm_num [Fshort])

/-- C3: every Signal emitted by `generate_signal` with direction BUY has
stop_loss < entry_price < take_profit, every emitted SELL has
take_profit < entry_price < stop_loss; the entry is the last close, the
BUY stop the sweep candle's low minus the ATR buffer, the SELL stop its
high plus the buffer, the target entry plus/minus twice the risk.  Stated
for well-formed inputs: the last candle satisfies low ≤ close ≤ high with
a positive close, and its atr cell, when a number, is nonnegative (the
indicator pipeline only produces nonnegative ATR). -/
theorem C3_price_ordering (st : EngineState) (f : Frame) (d : String) (info : SignalInfo)
    (st' : EngineState)
    (hlc : (lastRow f).low ≤ (lastRow f).close) (hch : (lastRow f).close ≤ (lastRow f).high)
    (hpos : 0 < (lastRow f).close)
    (hatr : ∀ a, (lastRow f).atr = some a → 0 ≤ a)
    (h : generate_signal st f = .ok (.signal d info, st')) :
    info.entry_price = (lastRow f).close ∧
    (d = "BUY" → ∃ s t, info.stop_loss = some s ∧ info.take_profit = some t ∧
      s < info.entry_price ∧ info.entry_price < t) ∧
    (d = "SELL" → ∃ s t, info.stop_loss = some s ∧ info.take_profit = some t ∧
      t < info.entry_price ∧ info.entry_price < s) := by
  obtain ⟨hc, -, -⟩ := gen_signal_inv h
  obtain ⟨sw, hsw, hdir, hentry, hrisk, hdisj⟩ := core_candidate_inv hc
  obtain ⟨s, hs, hb1, hb2⟩ := risk_ok_spec hrisk
  have hatr' : ∀ a, atr_read f = some a → 0 ≤ a := by
    intro a ha
    unfold atr_read at ha
    by_cases hb : f.has_atr
    · rw [if_pos hb] at ha
      exact hatr a ha
    · rw [if_neg hb] at ha
      injection ha with ha
      rw [← ha]
      exact mul_nonneg hpos.le (by norm_num)
  have hemin : 0 < info.entry_price * MIN_RISK_PCT := by
    rw [hentry]
    exact mul_pos hpos (by norm_num [MIN_RISK_PCT])
  refine ⟨hentry, ?_, ?_⟩
  · intro hdb
    rcases hdisj with ⟨-, hsl, htp⟩ | ⟨hnb, -, -⟩
    swap
    · exact absurd hdb hnb
    rcases hA : atr_read f with _ | a
    · rw [hsl] at hs
      simp [buy_sl, hA, nfMul, nfSub] at hs
    · have hlow : sw.sweep_level = (lastRow f).low := by
        rcases sweep_cases hsw with ⟨-, hh⟩ | ⟨hsell, -⟩
        · exact hh
        · rw [hdir, hdb] at hsell
          exact absurd hsell (by decide)
      have hs' : s = sw.sweep_level - a * ATR_SL_MULTIPLIER := by
        have h2 := hs.symm.trans hsl
        simp [buy_sl, hA, nfMul, nfSub] at h2
        exact h2
      have ht : info.take_profit = some ((lastRow f).close +
          ((lastRow f).close - s) * RRR_RATIO) := by
        rw [htp, hs']
        simp [buy_tp, buy_sl, hA, nfMul, nfSub, nfAdd]
      have h610 : 0 ≤ a * ATR_SL_MULTIPLIER :=
        mul_nonneg (hatr' a hA) (by norm_num [ATR_SL_MULTIPLIER])
      have hsle : s ≤ info.entry_price := by
        rw [hentry, hs', hlow]
        linarith
      have habs : |info.entry_price - s| = info.entry_price - s :=
        abs_of_nonneg (by linarith)
      rw [habs] at hb1
      have hlt : s < info.entry_price := by linarith
      refine ⟨s, (lastRow f).close + ((lastRow f).close - s) * RRR_RATIO, hs, ht, hlt, ?_⟩
      rw [hentry]
      have : 0 < ((lastRow f).close - s) * RRR_RATIO := by
        rw [← hentry]
        exact mul_pos (by linarith) (by norm_num [ RRR_RATIO])
      linarith
  · intro hds
    rcases hdisj with ⟨hbd, -, -⟩ | ⟨-, hsl, htp⟩
    · rw [hds] at hbd
      exact absurd hbd (by decide)
    rcases hA : atr_read f with _ | a
    · rw [hsl] at hs
      simp [sell_sl, hA, nfMul, nfAdd] at hs
    · have hhigh : sw.sweep_level = (lastRow f).high := by
        rcases sweep_cases hsw with ⟨hbuy, -⟩ | ⟨-, hh⟩
        · rw [hdir, hds] at hbuy
          exact absurd hbuy (by decide)
        · exact hh
      have hs' : s = sw.sweep_level + a * ATR_SL_MULTIPLIER := by
        have h2 := hs.symm.trans hsl
        simp [sell_sl, hA, nfMul, nfAdd] at h2
        exact h2
      have ht : info.take_profit = some ((lastRow f).close -
          (s - (lastRow f).close) * RRR_RATIO) := by
        rw [htp, hs']
        simp [sell_tp, sell_sl, hA, nfMul, nfSub, nfAdd]
      have h610 : 0 ≤ a * ATR_SL_MULTIPLIER :=
        mul_nonneg (hatr' a hA) (by norm_num [ATR_SL_MULTIPLIER])
      have hsge : info.entry_price ≤ s := by
        rw [hentry, hs', hhigh]
        linarith
      have habs : |info.entry_price - s| = s - info.entry_price := by
        rw [abs_sub_comm]
        exact abs_of_nonneg (by linarith)
      rw [habs] at hb1
      have hgt : info.entry_price < s := by linarith
      refine ⟨s, (lastRow f).close - (s - (lastRow f).close) * RRR_RATIO, hs, ht, ?_, hgt⟩
      rw [hentry]
      have : 0 < (s - (lastRow f).close) * RRR_RATIO := by
        rw [← hentry]
        exact mul_pos (by linarith) (by norm_num [ RRR_RATIO])
      linarith

/-- Witness for C3 at the section-8 scenario: 9984 < 10000 < 10032. -/
theorem C3_witness :
    sig60.entry_price = (lastRow F60).close ∧
    ("BUY" = "BUY" → ∃ s t, sig60.stop_loss = some s ∧ sig60.take_profit = some t ∧
      s < sig60.entry_price ∧ sig60.entry_price < t) ∧
    ("BUY" = "SELL" → ∃ s t, sig60.stop_loss = some s ∧ sig60.take_profit = some t ∧
      t < sig60.entry_price ∧ sig60.entry_price < s) :=
  C3_price_ordering stBull F60 "BUY" sig60 ⟨"BULL", "BUY"⟩
    (by norm_num [lastRow, F60, List.replicate, rowA, rowHigh, row55, row56, row57, row58, row59])
    (by norm_num [lastRow, F60, List.replicate, rowA, rowHigh, row55, row56, row57, row58, row59])
    (by norm_num [lastRow, F60, List.replicate, rowA, rowHigh, row55, row56, row57, row58, row59])
    (by intro a ha
        norm_num [lastRow, F60, List.replicate, rowA, rowHigh, row55, row56, row57, row58,
          row59] at ha
        norm_num [← ha])
    F60_eval

/-- C5: `detect_liquidity_sweep` returns absent on fewer than
lookback + 2 = 22 candles; otherwise it returns at most one SweepEvent —
a BUY event (level = last low) iff the BUY condition holds (last high
above the trailing-window high with a wick-only breach), and, only when
the BUY condition fails, a SELL event (level = last high) iff the SELL
condition holds — both directions of each iff: any returned event implies
its condition, the BUY condition forces the BUY event, and a failed BUY
condition together with the SELL condition forces the SELL event; so BUY
takes priority and BUY and SELL are never both returned for the same
last candle. -/
theorem C5_sweep_characterisation (f : Frame) :
    (f.rows.length < 22 → detect_liquidity_sweep f 20 = none) ∧
    (∀ s, detect_liquidity_sweep f 20 = some s →
      (s.direction = "BUY" ∧ s.sweep_level = (lastRow f).low ∧ sweepBuyCond f = true) ∨
      (s.direction = "SELL" ∧ s.sweep_level = (lastRow f).high ∧
        sweepBuyCond f = false ∧ sweepSellCond f = true)) ∧
    (22 ≤ f.rows.length → sweepBuyCond f = true →
      detect_liquidity_sweep f 20 = some ⟨"BUY", (lastRow f).low⟩) ∧
    (22 ≤ f.rows.length → sweepBuyCond f = false → sweepSellCond f = true →
      detect_liquidity_sweep f 20 = some ⟨"SELL", (lastRow f).high⟩) := by
  refine ⟨?_, ?_, ?_, ?_⟩
  · intro hlt
    simp only [detect_liquidity_sweep]
    rw [if_pos hlt]
  · intro s hs
    simp only [detect_liquidity_sweep] at hs
    split at hs
    · cases hs
    · split at hs
      next hb =>
        injection hs with h2
        subst h2
        exact Or.inl ⟨rfl, rfl, by simpa [sweepBuyCond] using hb⟩
      next hb =>
        split at hs
        next hsl =>
          injection hs with h2
          subst h2
          refine Or.inr ⟨rfl, rfl, ?_, by simpa [sweepSellCond] using hsl⟩
          simpa [sweepBuyCond] using hb
        next => cases hs
  · intro hge hbuy
    simp only [sweepBuyCond] at hbuy
    simp only [detect_liquidity_sweep]
    rw [if_neg (by omega), if_pos hbuy]
  · intro hge hbuyF hsell
    simp only [sweepBuyCond] at hbuyF
    simp only [sweepSellCond] at hsell
    simp only [detect_liquidity_sweep]
    rw [if_neg (by omega), if_neg (by rw [hbuyF]; exact Bool.false_ne_true), if_pos hsell]

/-- Witness for C5: the section-8 frame yields exactly the BUY event at
the last candle's low, with the BUY condition established. -/
theorem C5_witness :
    ((⟨"BUY", (9990 : ℚ)⟩ : Sweep).direction = "BUY" ∧
      (⟨"BUY", (9990 : ℚ)⟩ : Sweep).sweep_level = (lastRow F60).low ∧
      sweepBuyCond F60 = true) ∨
    ((⟨"BUY", (9990 : ℚ)⟩ : Sweep).direction = "SELL" ∧
      (⟨"BUY", (9990 : ℚ)⟩ : Sweep).sweep_level = (lastRow F60).high ∧
      sweepBuyCond F60 = false ∧ sweepSellCond F60 = true) :=
  (C5_sweep_characterisation F60).2.1 ⟨"BUY", 9990⟩ F60_sweep

/-- C6 counterexample: on the qualifying BUY-sweep frame with a NEUTRAL
higher-timeframe bias, the rejection reason emitted by the code is
"HTF not BULL" — not the "HTF misaligned" string the claim names. -/
theorem C6_counterexample :
    generate_signal initState F60 = .ok (.noTrade "HTF not BULL", initState) ∧
    "HTF not BULL" ≠ "HTF misaligned" :=
  ⟨F60_neutral, by decide⟩

/-- C6 amended: a candidate BUY while htf_trend ≠ BULL is rejected with
reason "HTF not BULL", a candidate SELL while htf_trend ≠ BEAR with
"HTF not BEAR" (the spec's single "HTF misaligned" string does not occur
in the code); state unchanged. -/
theorem C6_htf_misalignment (st : EngineState) (f : Frame) (sw : Sweep)
    (hlen : 50 ≤ f.rows.length) (hbb : bb_ok (bb_width_read f) = true)
    (hsw : detect_liquidity_sweep f 20 = some sw)
    (hmis : (sw.direction = "BUY" ∧ st.htf_trend ≠ "BULL") ∨
            (sw.direction = "SELL" ∧ st.htf_trend ≠ "BEAR")) :
    generate_signal st f =
      .ok (.noTrade (if sw.direction = "BUY" then "HTF not BULL" else "HTF not BEAR"), st) :=
  gen_reject_of_core (htf_reject st.htf_trend f sw hlen hbb hsw hmis)

/-- Witness for C6 (amended) at the section-8 frame with NEUTRAL bias. -/
theorem C6_witness :
    generate_signal initState F60 =
      .ok (.noTrade (if (⟨"BUY", (9990 : ℚ)⟩ : Sweep).direction = "BUY"
        then "HTF not BULL" else "HTF not BEAR"), initState) :=
  C6_htf_misalignment initState F60 ⟨"BUY", 9990⟩ (by rw [F60_len]; norm_num) F60_bb F60_sweep
    (Or.inl ⟨rfl, by decide⟩)

/-- Helper: the last row of the section-8 frame. -/
theorem F60_last : lastRow F60 = row59 := by
  norm_num [lastRow, F60, List.replicate]

/-- C7 counterexample: the section-8 scenario (atr = 10, sweep level
9990) emits stop_loss 9984 = 9990 - 0.6 * 10, not the claimed
sweep_level - 0.5 * atr = 9985. -/
theorem C7_counterexample :
    generate_signal stBull F60 = .ok (.signal "BUY" sig60, ⟨"BULL", "BUY"⟩) ∧
    sig60.atr = some 10 ∧ detect_liquidity_sweep F60 20 = some ⟨"BUY", 9990⟩ ∧
    sig60.stop_loss ≠ some (9990 - (5 / 10) * 10) :=
  ⟨F60_eval, rfl, F60_sweep, by norm_num [sig60]⟩

/-- C7 amended: in the section-8 qualifying BUY scenario the emitted
Signal has entry = last close, stop_loss = sweep_level −
ATR_SL_MULTIPLIER × atr with ATR_SL_MULTIPLIER = 0.6 (the source constant
is 0.6, not the 0.5 the claim uses), take_profit = entry + 2 × (entry −
stop_loss), and signal_strength = SOFT. -/
theorem C7_scenario_levels :
    generate_signal stBull F60 = .ok (.signal "BUY" sig60, ⟨"BULL", "BUY"⟩) ∧
    sig60.entry_price = (lastRow F60).close ∧
    sig60.stop_loss = some (9990 - ATR_SL_MULTIPLIER * 10) ∧
    ATR_SL_MULTIPLIER = 6 / 10 ∧
    sig60.take_profit = some (sig60.entry_price + (sig60.entry_price - 9984) * RRR_RATIO) ∧
    RRR_RATIO = 2 ∧
    sig60.signal_strength = "SOFT" := by
  refine ⟨F60_eval, ?_, ?_, rfl, ?_, rfl, rfl⟩
  · rw [F60_last]
    norm_num [sig60, row59]
  · norm_num [sig60, ATR_SL_MULTIPLIER]
  · norm_num [sig60, RRR_RATIO]

/-- C9 counterexample: call 1 emits BUY; call 2 (a short frame) is a
different outcome, NoTrade "Insufficient data"; yet call 3 with the same
qualifying BUY frame is still suppressed as "Duplicate signal" — the
intervening different outcome did not lift the suppression. -/
theorem C9_counterexample :
    generate_signal stBull F60 = .ok (.signal "BUY" sig60, ⟨"BULL", "BUY"⟩) ∧
    generate_signal ⟨"BULL", "BUY"⟩ Fshort =
      .ok (.noTrade "Insufficient data", ⟨"BULL", "BUY"⟩) ∧
    generate_signal ⟨"BULL", "BUY"⟩ F60 =
      .ok (.noTrade "Duplicate signal", ⟨"BULL", "BUY"⟩) :=
  ⟨F60_eval, short_insufficient _ Fshort (by norm_num [Fshort]), F60_dup⟩

/-- C9 amended: after a Signal with direction D is emitted, a repeated
identical-direction candidate D stays suppressed until a Signal of the
other direction is emitted: NoTrade outcomes (whatever the reason) never
change `last_signal`, and any state carrying the same `htf_trend` with
`last_signal = D` still answers the qualifying frame with
NoTrade "Duplicate signal". -/
theorem C9_debounce_persistence (st : EngineState) (f : Frame) (d : String)
    (info : SignalInfo) (st1 : EngineState)
    (hemit : generate_signal st f = .ok (.signal d info, st1)) :
    st1.last_signal = d ∧
    (∀ g r st2, generate_signal st1 g = .ok (.noTrade r, st2) → st2 = st1) ∧
    (∀ s2 : EngineState, s2.htf_trend = st.htf_trend → s2.last_signal = d →
      generate_signal s2 f = .ok (.noTrade "Duplicate signal", s2)) := by
  obtain ⟨hc, hne, hst⟩ := gen_signal_inv hemit
  subst hst
  refine ⟨rfl, ?_, ?_⟩
  · intro g r st2 h2
    exact gen_noTrade_inv h2
  · intro s2 hh hl
    exact dup_suppress hh hc hl

/-- Witness for C9 (amended): after the scenario's BUY emission,
`last_signal` is BUY and the identical frame is answered with
"Duplicate signal". -/
theorem C9_witness :
    (⟨"BULL", "BUY"⟩ : EngineState).last_signal = "BUY" ∧
    generate_signal ⟨"BULL", "BUY"⟩ F60 =
      .ok (.noTrade "Duplicate signal", ⟨"BULL", "BUY"⟩) := by
  have h := C9_debounce_persistence stBull F60 "BUY" sig60 ⟨"BULL", "BUY"⟩ F60_eval
  exact ⟨h.1, h.2.2 ⟨"BULL", "BUY"⟩ rfl rfl⟩

/-- C10: on any frame of at least 50 rows (the close column is part of
the candle data) whose `bb_width_percent` read is NaN, 0, or whose column
is absent, `generate_signal` returns normally — no raise, `Except.ok` —
with NoTrade "BB width filter", before any later step touches the
possibly-missing `tdi_slow_ma` column; a missing `tdi_slow_ma` or
`bb_width_percent` is read as 0 and a missing `atr` defaults to last
close × 0.001. -/
theorem C10_missing_columns (st : EngineState) (f : Frame) (hlen : 50 ≤ f.rows.length)
    (hbb : bb_width_read f = none ∨ bb_width_read f = some 0 ∨
      f.has_bb_width_percent = false) :
    generate_signal st f = .ok (.noTrade "BB width filter", st) ∧
    (f.has_tdi_slow_ma = false → tdi_slow_read f = some 0) ∧
    (f.has_atr = false → atr_read f = some ((lastRow f).close * (1 / 1000))) := by
  refine ⟨?_, ?_, ?_⟩
  · apply bb_reject st f hlen
    rcases hbb with h | h | h
    · simp [bb_ok, h, nfLe]
    · simp only [bb_ok, h, nfLe]
      norm_num [MIN_BB_WIDTH]
    · have h0 : bb_width_read f = some 0 := by simp [bb_width_read, h]
      simp only [bb_ok, h0, nfLe]
      norm_num [MIN_BB_WIDTH]
  · intro h
    simp [tdi_slow_read, h]
  · intro h
    simp [atr_read, h]

/-- Witness for C10: 50 rows, `bb_width_percent` column absent. -/
theorem C10_witness :
    generate_signal stBull F50nb = .ok (.noTrade "BB width filter", stBull) ∧
    (F50nb.has_tdi_slow_ma = false → tdi_slow_read F50nb = some 0) ∧
    (F50nb.has_atr = false → atr_read F50nb = some ((lastRow F50nb).close * (1 / 1000))) :=
  C10_missing_columns stBull F50nb (by norm_num [F50nb]) (Or.inr (Or.inr rfl))

theorem find?_append_ne (cols : List (String × List ℚ)) (name m : String) (vs : List ℚ)
    (h : (name == m) = false) :
    List.find? (fun c => c.1 == m) (cols ++ [(name, vs)]) =
    List.find? (fun c => c.1 == m) cols := by
  rw [List.find?_append]
  simp [List.find?, h]

theorem setCol_fresh (f : PFrame) (name : String) (vs : List ℚ)
    (h : (f.cols.any (fun c => c.1 == name)) = false) :
    setCol f name vs = ⟨f.nrows, f.cols ++ [(name, vs)]⟩ := by
  unfold setCol
  rw [if_neg]
  simp [h]

/-- Evaluation of `set_htf_trend` on the 3-row close-only frame: the
last close 3 exceeds the last EMA 563/441, so the bias is BULL, and the
caller's frame has gained the `close_ema_20` column in place. -/
theorem P3_eval : set_htf_trend initState P3 = .ok (⟨"BULL", "NO_TRADE"⟩, P3after) := by
  have h1 : ("close" ++ "_ema_" ++ toString HTF_EMA_PERIOD) = "close_ema_20" := by decide
  have h2 : ("close" == "close_ema_20") = false := by decide
  have h3 : ("close" == "close") = true := by decide
  have h4 : ("close_ema_20" == "close") = false := by decide
  have h5 : ("close_ema_20" == "close_ema_20") = true := by decide
  have h6 : ("close_ema_" ++ toString (20 : ℕ)) = "close_ema_20" := by decide
  have h7 : ("close" ++ "_ema_" ++ toString (20 : ℕ)) = "close_ema_20" := by decide
  norm_num +decide [set_htf_trend, calculate_ema, getCol, setCol, ewma, ewmaFrom,
    HTF_EMA_PERIOD, P3, P3after, initState, List.find?, List.any, h1, h2, h3, h4, h5, h6, h7]

/-- C8 counterexample: `set_htf_trend` on a 3-row higher-timeframe frame
returns with the caller's frame changed — it has gained the
`close_ema_20` column (indicators.py line 48 assigns the EMA column on
the frame passed in, without a copy) — so the caller's original frame
does not keep exactly the columns it had. -/
theorem C8_counterexample :
    set_htf_trend initState P3 = .ok (⟨"BULL", "NO_TRADE"⟩, P3after) ∧
    P3after ≠ P3 ∧
    P3after.cols.map Prod.fst = ["close", "close_ema_20"] ∧
    P3.cols.map Prod.fst = ["close"] :=
  ⟨P3_eval, by norm_num [P3, P3after], by norm_num [P3after], by norm_num [P3]⟩

/-- C8 amended: `calculate_all_indicators` operates on a copy (line 127)
and leaves the caller's frame untouched, but `set_htf_trend`'s EMA
computation mutates the caller's higher-timeframe frame in place: the
frame after the call has the same row count, the same columns in the same
order with their values unchanged, plus the appended `close_ema_20`
column.  The derived column thus appears on the caller's frame itself,
not only on a returned copy. -/
theorem C8_frame_copy_semantics (st : EngineState) (f : PFrame) (st' : EngineState)
    (f' : PFrame) (hn : 0 < f.nrows)
    (hfresh : (f.cols.any (fun c => c.1 == "close_ema_20")) = false)
    (h : set_htf_trend st f = .ok (st', f')) :
    calculate_all_indicators_caller_after f = f ∧
    f'.nrows = f.nrows ∧
    f'.cols.map Prod.fst = f.cols.map Prod.fst ++ ["close_ema_20"] ∧
    (∀ n, (n == "close_ema_20") = false → getCol f' n = getCol f n) := by
  have hname : ("close" ++ "_ema_" ++ toString HTF_EMA_PERIOD) = "close_ema_20" := by decide
  have hname2 : ("close_ema_" ++ toString HTF_EMA_PERIOD) = "close_ema_20" := by decide
  unfold set_htf_trend calculate_ema at h
  rw [if_neg (by omega)] at h
  cases hg : getCol f "close" with
  | none => simp only [hg] at h; exact absurd h (by simp)
  | some xs =>
    simp only [hg, hname, hname2] at h
    have hset : setCol f "close_ema_20" (ewma HTF_EMA_PERIOD xs) =
        ⟨f.nrows, f.cols ++ [("close_ema_20", ewma HTF_EMA_PERIOD xs)]⟩ :=
      setCol_fresh f _ _ hfresh
    rw [hset] at h
    have hgc : getCol ⟨f.nrows, f.cols ++ [("close_ema_20", ewma HTF_EMA_PERIOD xs)]⟩
        "close" = some xs := by
      unfold getCol at hg ⊢
      rw [find?_append_ne _ _ _ _ (by decide)]
      exact hg
    have hge : getCol ⟨f.nrows, f.cols ++ [("close_ema_20", ewma HTF_EMA_PERIOD xs)]⟩
        "close_ema_20" = some (ewma HTF_EMA_PERIOD xs) := by
      unfold getCol
      rw [List.find?_append]
      have hnone : List.find? (fun c => c.1 == "close_ema_20") f.cols = none := by
        rw [List.find?_eq_none]
        intro x hx
        have := (List.any_eq_false.mp hfresh) x hx
        simp [this]
      rw [hnone]
      simp [List.find?]
    simp only [hgc, hge] at h
    cases hx : xs.getLast? with
    | none => simp only [hx] at h; exact absurd h (by simp)
    | some c =>
      cases he : (ewma HTF_EMA_PERIOD xs).getLast? with
      | none => simp only [hx, he] at h; exact absurd h (by simp)
      | some em =>
        simp only [hx, he] at h
        simp only [Except.ok.injEq, Prod.mk.injEq] at h
        obtain ⟨-, hf⟩ := h
        subst hf
        refine ⟨rfl, rfl, by simp, ?_⟩
        intro n hn
        have hn' : ("close_ema_20" == n) = false := by
          rw [beq_eq_false_iff_ne] at hn ⊢
          exact fun e => hn e.symm
        unfold getCol
        rw [find?_append_ne _ _ _ _ hn']

/-- Witness for C8 (amended) at the 3-row frame: the caller's frame keeps
its row count and close column and gains exactly `close_ema_20`. -/
theorem C8_witness :
    calculate_all_indicators_caller_after P3 = P3 ∧
    P3after.nrows = P3.nrows ∧
    P3after.cols.map Prod.fst = P3.cols.map Prod.fst ++ ["close_ema_20"] ∧
    getCol P3after "close" = getCol P3 "close" := by
  have h := C8_frame_copy_semantics initState P3 ⟨"BULL", "NO_TRADE"⟩ P3after
    (by norm_num [P3]) (by decide) P3_eval
  exact ⟨h.1, h.2.1, h.2.2.1, h.2.2.2 "close" (by decide)⟩
